import Mathlib

/-!
Verification of the WhatsThePlan event pipeline.

The definitions below are a shallow embedding of the repository's Python
sources: `src/worker/main.py` (worker loop, retry/poison-pill lifecycle,
`calculate_hotness`), `src/app/main.py` (`/ingest`, `/scores`), and the
data model of `src/app/models.py`.  Timestamps are modelled as integers
(one unit per minute, so the 30-minute window is the constant 30), database
rows as lists, and Redis structures as explicit state records.

The two score formulas divide Python floats.  On the rationals those
expressions are exact: `int((total / capacity) * 100)` is the truncation
toward zero of `total * 100 / capacity`, and
`int((volume / (capacity * 0.5)) * 100)` is the truncation toward zero of
`volume * 200 / capacity`.  The embedding computes those exact values with
integer arithmetic (`truncDiv`).  Every concrete input used in a theorem
below makes the corresponding float computation exact, so on those inputs
the modelled value is the value the Python code computes.
-/

set_option linter.unusedVariables false

namespace WhatsThePlan

/-- Truncation toward zero of the exact quotient `a / b`: the value of
Python `int(a / b)` when the division is exact.  Division by zero yields 0
(the code never divides by zero: both score functions guard it). -/
def truncDiv (a b : ℤ) : ℤ :=
  if decide (0 ≤ a) = decide (0 ≤ b) then ((a.natAbs / b.natAbs : ℕ) : ℤ)
  else -((a.natAbs / b.natAbs : ℕ) : ℤ)

/-- Rounding half-up of the exact quotient `p / q` for `q > 0`:
`round (p / q) = ⌊p / q + 1 / 2⌋ = ⌊(2 * p + q) / (2 * q)⌋`.  Used only by
the spec-side formula `specHotness`. -/
def roundHalfDiv (p q : ℤ) : ℤ := (2 * p + q).fdiv (2 * q)

/-- A venue row (`app/models.py`, class `Venue`): only the columns the
pipeline reads are modelled.  The column named `secret_key_hash` stores the
literal shared secret (see the long comment in `app/main.py:139-201`). -/
structure Venue where
  id : String
  capacity : ℤ
  secret_key_hash : String
  deriving DecidableEq, Repr

/-- A transaction row (`app/models.py`, class `Transaction`). -/
structure Transaction where
  venue_id : String
  timestamp : ℤ
  quantity : ℤ
  deriving DecidableEq, Repr

/-- The 30-minute window, in modelled time units. -/
def WINDOW : ℤ := 30

/-- `MAX_RETRIES = 3` from `worker/main.py:20`. -/
def MAX_RETRIES : ℕ := 3

/-- The worker's window query (`worker/main.py:57-60`):
`SUM(quantity)` over rows of the venue with `timestamp >= lo`.
Note the query has no upper bound on the timestamp. -/
def sumQuantitySince (txns : List Transaction) (vid : String) (lo : ℤ) : ℤ :=
  ((txns.filter (fun t => t.venue_id == vid && decide (lo ≤ t.timestamp))).map
    (fun t => t.quantity)).sum

/-- The `/scores` window query (`app/main.py:361-369`): `SUM(quantity)` over
rows of the venue with `lo ≤ timestamp ≤ hi`. -/
def sumQuantityBetween (txns : List Transaction) (vid : String) (lo hi : ℤ) : ℤ :=
  ((txns.filter (fun t =>
      t.venue_id == vid && decide (lo ≤ t.timestamp) && decide (t.timestamp ≤ hi))).map
    (fun t => t.quantity)).sum

/-- The worker's score computation (`worker/main.py:48-66`).  Looks the
venue up (a missing venue yields 0), sums the quantities since `now - 30`,
returns 0 when the capacity equals 0, and otherwise computes
`min(int((total_txns / venue.capacity) * 100), 100)`; in exact arithmetic
`(total_txns / capacity) * 100 = total_txns * 100 / capacity`, truncated
toward zero by `int`.  There is no scaling factor and no lower clamp, and
the guard is `capacity == 0`, not `capacity <= 0`. -/
def calculate_hotness (venues : List Venue) (txns : List Transaction)
    (now : ℤ) (venue_id : String) : ℤ :=
  match venues.find? (fun v => v.id == venue_id) with
  | none => 0
  | some venue =>
      let thirty_mins_ago := now - WINDOW
      let total_txns := sumQuantitySince txns venue_id thirty_mins_ago
      if venue.capacity = 0 then 0
      else min (truncDiv (total_txns * 100) venue.capacity) 100

/-- The per-venue body of the `/scores` loop (`app/main.py:355-375`).
Capacity at most 0 short-circuits to 0 before the window query; otherwise
`threshold = capacity * 0.5`, and when the threshold is positive (which for
an integer capacity is exactly `0 < capacity`)
`score = int((volume / threshold) * 100)`, whose exact value is the
truncation toward zero of `volume * 200 / capacity`; the result is clamped
by `min(100, max(0, score))`. -/
def venueScore (txns : List Transaction) (virtual_now : ℤ) (v : Venue) : ℤ :=
  if v.capacity ≤ 0 then 0
  else
    let volume := sumQuantityBetween txns v.id (virtual_now - WINDOW) virtual_now
    let score : ℤ := if 0 < v.capacity then truncDiv (volume * 200) v.capacity else 0
    min 100 (max 0 score)

/-- `SELECT MAX(timestamp) FROM transactions` (`app/main.py:346-348`):
`none` exactly when the table is empty. -/
def virtualNow (txns : List Transaction) : Option ℤ :=
  (txns.map (fun t => t.timestamp)).max?

/-- The `/scores` endpoint (`app/main.py:332-377`).  Returns the per-venue
scores together with the number of per-venue window queries executed: when
the transactions table is empty (`virtual_now` is `NULL`) it returns 0 for
every venue and runs no window query; otherwise it runs one window query
per venue with positive capacity (venues with capacity at most 0 `continue`
before the query). -/
def get_scores (venues : List Venue) (txns : List Transaction) :
    List (String × ℤ) × ℕ :=
  match virtualNow txns with
  | none => (venues.map (fun v => (v.id, 0)), 0)
  | some vn =>
      (venues.map (fun v => (v.id, venueScore txns vn v)),
       (venues.filter (fun v => decide (0 < v.capacity))).length)

/-- The score formula in the words of the spec (section 4.4):
`clamp(0, 100, round(100 * windowSum / (capacity * scaling_factor)))` with
`scaling_factor = 0.5`, and 0 for capacity at most 0.  In exact arithmetic
`100 * S / (C * 0.5) = 200 * S / C`, rounded half-up by `roundHalfDiv`.
Kept separate from the source-derived definitions so they can be
compared. -/
def specHotness (capacity windowSum : ℤ) : ℤ :=
  if capacity ≤ 0 then 0
  else min 100 (max 0 (roundHalfDiv (200 * windowSum) capacity))

/-! ## Worker message processing (`worker/main.py:68-132`)

`process_message` runs, for one claimed stream entry, the sequence
decode → insert+commit → score → redis SET → publish → XACK → DEL retry
inside a `try`, with the `except` branch doing `db.rollback()` followed by
the retry/poison-pill logic.  A run either completes or raises at one of
the fallible operations; the raising operation is injected as a `Fault`
value (`Fault.ok` means no operation raises).  The commit happens directly
after the insert (`worker/main.py:96`), before the score computation and
the Redis operations, so `db.rollback()` in the `except` branch can only
discard an insert whose commit had not executed yet. -/

/-- Cumulative effects of processing one stream entry: committed
transaction rows, `SET venue:{id}:score` writes, `PUBLISH` messages, the
number of `XACK` calls for the entry, the entry's retry counter
(`retry:{id}`, 0 when absent), the dead-letter list (`LPUSH` prepends), and
whether the entry is still in the consumer group's pending set. -/
structure WorkerEffects where
  committedTxns : List Transaction
  scoreKeys : List (String × ℤ)
  published : List (String × ℤ)
  ackedMain : ℕ
  retryCount : ℕ
  dlq : List (List (String × String))
  pendingEntry : Bool
  deriving DecidableEq, Repr

/-- The JSON object pushed to the dead-letter list
(`worker/main.py:71`): `{"id": id, "message": str(message), "error":
str(error)}`, as an ordered key-value list. -/
def poisonRecord (entryId message error : String) : List (String × String) :=
  [("id", entryId), ("message", message), ("error", error)]

/-- `handle_poison_pill` (`worker/main.py:68-73`): `LPUSH` the record onto
the dead-letter list, then `XACK` the entry (removing it from the pending
set). -/
def handle_poison_pill (entryId message error : String)
    (s : WorkerEffects) : WorkerEffects :=
  { s with dlq := poisonRecord entryId message error :: s.dlq,
           ackedMain := s.ackedMain + 1,
           pendingEntry := false }

/-- Which fallible operation of `process_message` raises on this run.
`ok` means none does.  `decode` covers the field decoding of
`worker/main.py:80-93` (missing field, bad integer, bad timestamp);
`insert` covers `db.add`/`db.commit`; `score` the window query inside
`calculate_hotness`; `setKey` the Redis `SET`; `publish` the `PUBLISH`;
`ack` the `XACK`; `delRetry` the final `DEL` of the retry counter. -/
inductive Fault where
  | ok | decode | insert | score | setKey | publish | ack | delRetry
  deriving DecidableEq, Repr

/-- The `str(e)` of the raised exception, for the dead-letter record. -/
def faultLabel : Fault → String
  | .ok => ""
  | .decode => "decode failure"
  | .insert => "insert failure"
  | .score => "score failure"
  | .setKey => "set failure"
  | .publish => "publish failure"
  | .ack => "ack failure"
  | .delRetry => "delete failure"

/-- The `except` branch of `process_message` (`worker/main.py:116-129`).
`db.rollback()` discards the uncommitted insert, if any (in the embedding
the insert only reaches `committedTxns` once the commit has executed, so
there is nothing to undo here).  Then `INCR retry:{id}`; if the result
exceeds `MAX_RETRIES`, quarantine via `handle_poison_pill` and `DEL` the
counter, else leave the entry pending for redelivery. -/
def exceptBranch (entryId rawMsg error : String) (s : WorkerEffects) :
    WorkerEffects :=
  let retries := s.retryCount + 1
  if MAX_RETRIES < retries then
    let s1 := handle_poison_pill entryId rawMsg error s
    { s1 with retryCount := 0 }
  else
    { s with retryCount := retries }

/-- One delivery of the entry to `process_message` (`worker/main.py:75-132`)
with fault `f` injected.  `rawMsg` is `str(message)`; `m` is the decoded
`TransactionEvent`; `venues`/`now` feed `calculate_hotness`. -/
def process_message (f : Fault) (entryId rawMsg : String) (m : Transaction)
    (venues : List Venue) (now : ℤ) (s : WorkerEffects) : WorkerEffects :=
  if f = .decode then exceptBranch entryId rawMsg (faultLabel f) s
  else if f = .insert then exceptBranch entryId rawMsg (faultLabel f) s
  else
    let s1 := { s with committedTxns := s.committedTxns ++ [m] }
    if f = .score then exceptBranch entryId rawMsg (faultLabel f) s1
    else
      let sc := calculate_hotness venues s1.committedTxns now m.venue_id
      if f = .setKey then exceptBranch entryId rawMsg (faultLabel f) s1
      else
        let s2 := { s1 with scoreKeys := s1.scoreKeys ++ [(m.venue_id, sc)] }
        if f = .publish then exceptBranch entryId rawMsg (faultLabel f) s2
        else
          let s3 := { s2 with published := s2.published ++ [(m.venue_id, sc)] }
          if f = .ack then exceptBranch entryId rawMsg (faultLabel f) s3
          else
            let s4 := { s3 with ackedMain := s3.ackedMain + 1,
                                pendingEntry := false }
            if f = .delRetry then exceptBranch entryId rawMsg (faultLabel f) s4
            else { s4 with retryCount := 0 }

/-- Whether the fault makes the processing attempt fail before the entry
is acknowledged: every fault except `ok` (success) and `delRetry` (the
`XACK` has already executed when the `DEL` of the retry counter
raises). -/
def failsBeforeAck : Fault → Bool
  | .ok => false
  | .delRetry => false
  | _ => true

/-- Modelled from the spec: redelivery of an unacknowledged entry.  The
worker only reads new entries (`XREADGROUP` with `>` at
`worker/main.py:141`); the reclaim sweep that would hand a pending entry
back to a consumer is the repository's acknowledged TODO
(`worker/main.py:148-149`) and spec section 4.2 requires it.  Following
the spec's consumer-group semantics, `deliver` delivers the entry while it
is still in the pending set and is a no-op once it has been
acknowledged. -/
def deliver (f : Fault) (entryId rawMsg : String) (m : Transaction)
    (venues : List Venue) (now : ℤ) (s : WorkerEffects) : WorkerEffects :=
  if s.pendingEntry then process_message f entryId rawMsg m venues now s else s

/-- The state before the first delivery of a fresh entry: nothing
committed, no retry counter, entry pending. -/
def initEffects : WorkerEffects :=
  { committedTxns := [], scoreKeys := [], published := [], ackedMain := 0,
    retryCount := 0, dlq := [], pendingEntry := true }

/-- `n` consecutive deliveries of the same entry, the `k`-th processed
with fault `fs k` injected. -/
def runDeliveries (fs : ℕ → Fault) (entryId rawMsg : String)
    (m : Transaction) (venues : List Venue) (now : ℤ) : ℕ → WorkerEffects
  | 0 => initEffects
  | n + 1 => deliver (fs n) entryId rawMsg m venues now
      (runDeliveries fs entryId rawMsg m venues now n)

/-- The retry-lifecycle projection of the worker state: retry counter,
dead-letter count, acknowledgment count, pending flag. -/
structure RetryView where
  retryCount : ℕ
  dlqLen : ℕ
  acked : ℕ
  pending : Bool
  deriving DecidableEq, Repr

def viewOf (s : WorkerEffects) : RetryView :=
  ⟨s.retryCount, s.dlq.length, s.ackedMain, s.pendingEntry⟩

/-- How one failed processing attempt transforms the retry-lifecycle
projection. -/
def stepView (v : RetryView) : RetryView :=
  if MAX_RETRIES < v.retryCount + 1 then ⟨0, v.dlqLen + 1, v.acked + 1, false⟩
  else ⟨v.retryCount + 1, v.dlqLen, v.acked, v.pending⟩

/-! ## Consumer-group creation (`worker/main.py:38-46`) -/

/-- A consumer group: its last-delivered cursor and its pending entry
ids. -/
structure GroupState where
  cursor : String
  pending : List String
  deriving DecidableEq, Repr

/-- The state of the stream's consumer groups; only `workers_group` on
`stream:incoming_txns` is relevant. -/
structure StreamGroups where
  group : Option GroupState
  deriving DecidableEq, Repr

inductive RedisError where
  | busygroup
  deriving DecidableEq, Repr

/-- Redis `XGROUP CREATE key group id MKSTREAM`: raises `BUSYGROUP` when
the group already exists, else creates it positioned at `startId` with an
empty pending set. -/
def xgroup_create (startId : String) (s : StreamGroups) :
    Except RedisError StreamGroups :=
  match s.group with
  | some _ => .error .busygroup
  | none => .ok { group := some { cursor := startId, pending := [] } }

/-- `ensure_group` (`worker/main.py:38-46`): `XGROUP CREATE` with
`id="0"`, catching `BUSYGROUP` (the group already exists) as a no-op and
re-raising nothing else (the model's only error is `BUSYGROUP`). -/
def ensure_group (s : StreamGroups) : Except RedisError StreamGroups :=
  match xgroup_create "0" s with
  | .ok s1 => .ok s1
  | .error .busygroup => .ok s

/-- The spec's words for `ensureGroup` (section 4.2): create the group
positioned at the start of the stream if absent, else a no-op that keeps
the existing group untouched. -/
def ensure_group_spec (s : StreamGroups) : StreamGroups :=
  match s.group with
  | some _ => s
  | none => { group := some { cursor := "0", pending := [] } }

/-! ## Ingestion (`app/main.py:116-222`) -/

/-- The parsed ingestion body (`app/schemas.py`, `IngestionPayload`). -/
structure IngestionPayload where
  venue_id : String
  timestamp : String
  transaction_count : ℤ
  deriving DecidableEq, Repr

/-- An ingestion request: the optional `X-Signature` header and the raw
body bytes. -/
structure IngestRequest where
  x_signature : Option String
  body : String
  deriving DecidableEq, Repr

/-- The fields `XADD`ed to `stream:incoming_txns` on success
(`app/main.py:209-217`). -/
structure StreamEntry where
  venue_id : String
  timestamp : String
  transaction_count : ℤ
  raw_payload : String
  deriving DecidableEq, Repr

/-- The response of `/ingest`: 401 missing header, 400 bad JSON/schema,
404 unknown venue, 403 bad signature, 500 queue failure, 200
`{"status": "queued"}`. -/
inductive IngestResponse where
  | missingSignature
  | invalidPayload
  | venueNotFound
  | invalidSignature
  | queueError
  | queued
  deriving DecidableEq, Repr

/-- The `/ingest` endpoint (`app/main.py:116-222`), returning the response
together with the list of entries appended to the stream.  `mac` models
`hmac.new(secret, body, sha256).hexdigest()` (an arbitrary deterministic
function of secret and body), `parse` models `json.loads` plus pydantic
validation, and `xaddOk` whether the Redis `XADD` succeeds.  The checks
run in source order: missing header, body parse, venue lookup, signature
comparison (`hmac.compare_digest`, i.e. string equality), then the
append. -/
def ingest_data (mac : String → String → String)
    (parse : String → Option IngestionPayload) (venues : List Venue)
    (xaddOk : Bool) (req : IngestRequest) :
    IngestResponse × List StreamEntry :=
  match req.x_signature with
  | none => (.missingSignature, [])
  | some sig =>
    match parse req.body with
    | none => (.invalidPayload, [])
    | some payload =>
      match venues.find? (fun v => v.id == payload.venue_id) with
      | none => (.venueNotFound, [])
      | some venue =>
        let expected := mac venue.secret_key_hash req.body
        if expected == sig then
          if xaddOk then
            (.queued, [{ venue_id := payload.venue_id,
                         timestamp := payload.timestamp,
                         transaction_count := payload.transaction_count,
                         raw_payload := req.body }])
          else (.queueError, [])
        else (.invalidSignature, [])

/-! ## Concrete example data used by counterexamples and witnesses -/

/-- A venue with capacity 100 (the spec's scenario). -/
def exVenue : Venue := { id := "v100", capacity := 100, secret_key_hash := "sec" }

/-- One transaction of quantity 25 at time 100, inside the 30-minute
window anchored at 100. -/
def exTxns : List Transaction := [{ venue_id := "v100", timestamp := 100, quantity := 25 }]

/-- The decoded event used in worker runs. -/
def exMsg : Transaction := { venue_id := "v100", timestamp := 100, quantity := 25 }

/-- A venue with negative capacity. -/
def negVenue : Venue := { id := "vneg", capacity := -100, secret_key_hash := "sec" }

/-- One transaction of quantity 50 at time 100 for the negative-capacity
venue. -/
def negTxns : List Transaction := [{ venue_id := "vneg", timestamp := 100, quantity := 50 }]

/-! ## Helper lemmas -/

lemma truncDiv_nonpos {a b : ℤ} (ha : 0 ≤ a) (hb : b < 0) : truncDiv a b ≤ 0 := by
  have h1 : decide (0 ≤ a) = true := decide_eq_true ha
  have h2 : decide (0 ≤ b) = false := decide_eq_false (not_le.mpr hb)
  simp only [truncDiv, h1, h2]
  split
  · next h => simp at h
  · exact neg_nonpos.mpr (Int.natCast_nonneg _)

lemma sumQuantitySince_nonneg {txns : List Transaction} {vid : String} {lo : ℤ}
    (hq : ∀ t ∈ txns, 0 ≤ t.quantity) : 0 ≤ sumQuantitySince txns vid lo := by
  refine List.sum_nonneg ?_
  intro q hqmem
  obtain ⟨t, htmem, rfl⟩ := List.mem_map.mp hqmem
  exact hq t (List.mem_of_mem_filter htmem)

lemma viewOf_exceptBranch (entryId rawMsg error : String) (s : WorkerEffects) :
    viewOf (exceptBranch entryId rawMsg error s) = stepView (viewOf s) := by
  by_cases h : MAX_RETRIES < s.retryCount + 1 <;>
    simp [exceptBranch, stepView, viewOf, handle_poison_pill, h]

lemma viewOf_process_message (f : Fault) (entryId rawMsg : String)
    (m : Transaction) (venues : List Venue) (now : ℤ) (s : WorkerEffects)
    (hf : failsBeforeAck f = true) :
    viewOf (process_message f entryId rawMsg m venues now s) = stepView (viewOf s) := by
  cases f with
  | ok => simp [failsBeforeAck] at hf
  | delRetry => simp [failsBeforeAck] at hf
  | decode => exact viewOf_exceptBranch _ _ _ _
  | insert => exact viewOf_exceptBranch _ _ _ _
  | score => exact viewOf_exceptBranch _ _ _ _
  | setKey => exact viewOf_exceptBranch _ _ _ _
  | publish => exact viewOf_exceptBranch _ _ _ _
  | ack => exact viewOf_exceptBranch _ _ _ _

lemma runDeliveries_view_le (fs : ℕ → Fault) (entryId rawMsg : String)
    (m : Transaction) (venues : List Venue) (now : ℤ)
    (hf : ∀ n, failsBeforeAck (fs n) = true) :
    ∀ k, k ≤ MAX_RETRIES →
      viewOf (runDeliveries fs entryId rawMsg m venues now k) = ⟨k, 0, 0, true⟩ := by
  intro k
  induction k with
  | zero => intro _; rfl
  | succ k ih =>
      intro hk
      have hv := ih (Nat.le_of_succ_le hk)
      have hpend : (runDeliveries fs entryId rawMsg m venues now k).pendingEntry = true := by
        have := congrArg RetryView.pending hv
        simpa [viewOf] using this
      have h1 : runDeliveries fs entryId rawMsg m venues now (k + 1)
          = deliver (fs k) entryId rawMsg m venues now
              (runDeliveries fs entryId rawMsg m venues now k) := rfl
      rw [h1, deliver, if_pos hpend,
        viewOf_process_message (fs k) entryId rawMsg m venues now _ (hf k), hv, stepView,
        if_neg (Nat.not_lt.mpr hk)]

lemma runDeliveries_view_exhausted (fs : ℕ → Fault) (entryId rawMsg : String)
    (m : Transaction) (venues : List Venue) (now : ℤ)
    (hf : ∀ n, failsBeforeAck (fs n) = true) :
    viewOf (runDeliveries fs entryId rawMsg m venues now (MAX_RETRIES + 1))
      = ⟨0, 1, 1, false⟩ := by
  have hv := runDeliveries_view_le fs entryId rawMsg m venues now hf MAX_RETRIES le_rfl
  have hpend : (runDeliveries fs entryId rawMsg m venues now MAX_RETRIES).pendingEntry = true := by
    have := congrArg RetryView.pending hv
    simpa [viewOf] using this
  have h1 : runDeliveries fs entryId rawMsg m venues now (MAX_RETRIES + 1)
      = deliver (fs MAX_RETRIES) entryId rawMsg m venues now
          (runDeliveries fs entryId rawMsg m venues now MAX_RETRIES) := rfl
  rw [h1, deliver, if_pos hpend,
    viewOf_process_message (fs MAX_RETRIES) entryId rawMsg m venues now _ (hf MAX_RETRIES),
    hv, stepView, if_pos (Nat.lt_succ_self MAX_RETRIES)]

lemma runDeliveries_stable (fs : ℕ → Fault) (entryId rawMsg : String)
    (m : Transaction) (venues : List Venue) (now : ℤ) (k : ℕ)
    (hpend : (runDeliveries fs entryId rawMsg m venues now k).pendingEntry = false) :
    ∀ n, runDeliveries fs entryId rawMsg m venues now (k + n)
      = runDeliveries fs entryId rawMsg m venues now k := by
  intro n
  induction n with
  | zero => rfl
  | succ n ih =>
      have h1 : runDeliveries fs entryId rawMsg m venues now (k + (n + 1))
          = deliver (fs (k + n)) entryId rawMsg m venues now
              (runDeliveries fs entryId rawMsg m venues now (k + n)) := rfl
      rw [h1, ih, deliver, if_neg (by simp [hpend])]

/-! ## Claim C1 -/

/-- C1 counterexample: the claim says both score computations equal
`clamp(0, 100, round(100 * windowSum / (capacity * 0.5)))`, and that
capacity 100 with window sum 25 scores 50.  The `/scores` endpoint does
score 50 there, but the worker's `calculate_hotness` has no scaling factor
and returns 25; moreover the endpoint truncates instead of rounding, so at
capacity 3 and window sum 1 it returns 66 where the spec formula rounds
200/3 to 67. -/
theorem c1_score_formula_counterexample :
    calculate_hotness [exVenue] exTxns 100 "v100" = 25
  ∧ venueScore exTxns 100 exVenue = 50
  ∧ specHotness exVenue.capacity (sumQuantitySince exTxns "v100" (100 - WINDOW)) = 50
  ∧ calculate_hotness [exVenue] exTxns 100 "v100"
      ≠ specHotness exVenue.capacity (sumQuantitySince exTxns "v100" (100 - WINDOW))
  ∧ venueScore [{ venue_id := "v3", timestamp := 100, quantity := 1 }] 100
      { id := "v3", capacity := 3, secret_key_hash := "s" } = 66
  ∧ specHotness 3 1 = 67 := by decide

/-- C1 (amended): for a venue with positive capacity, the `/scores`
endpoint computes `clamp(0, 100, trunc(windowSum * 200 / capacity))` —
the spec's formula with `round` replaced by truncation toward zero —
while the worker's `calculate_hotness` applies no scaling factor and no
lower clamp: `min(trunc(windowSum * 100 / capacity), 100)`.  In the
spec's scenario (capacity 100, window sum 25) the endpoint returns 50 and
the worker returns 25. -/
theorem c1_amended_score_formulas (v : Venue) (txns : List Transaction) (now : ℤ)
    (hcap : 0 < v.capacity) :
    calculate_hotness [v] txns now v.id
      = min (truncDiv (sumQuantitySince txns v.id (now - WINDOW) * 100) v.capacity) 100
  ∧ venueScore txns now v
      = min 100 (max 0
          (truncDiv (sumQuantityBetween txns v.id (now - WINDOW) now * 200) v.capacity)) := by
  constructor
  · simp only [calculate_hotness, List.find?_cons, beq_self_eq_true]
    rw [if_neg (by omega)]
  · simp only [venueScore]
    rw [if_neg (by omega), if_pos hcap]

/-- C1 witness: the amended formulas evaluated at the scenario venue. -/
theorem c1_amended_score_formulas_witness :
    calculate_hotness [exVenue] exTxns 100 exVenue.id
      = min (truncDiv (sumQuantitySince exTxns exVenue.id (100 - WINDOW) * 100) exVenue.capacity) 100
  ∧ venueScore exTxns 100 exVenue
      = min 100 (max 0
          (truncDiv (sumQuantityBetween exTxns exVenue.id (100 - WINDOW) 100 * 200) exVenue.capacity)) :=
  c1_amended_score_formulas exVenue exTxns 100 (by decide)

/-! ## Claim C2 -/

/-- C2 counterexample: the commit runs directly after the insert
(`worker/main.py:96`), so a publish failure on the first delivery leaves
the transaction row committed even though the entry was never
acknowledged — the insert is not rolled back on this non-acknowledged
attempt. -/
theorem c2_commit_before_ack_counterexample :
    (process_message Fault.publish "1-0" "raw" exMsg [exVenue] 100 initEffects).ackedMain = 0
  ∧ (process_message Fault.publish "1-0" "raw" exMsg [exVenue] 100 initEffects).committedTxns
      = [exMsg]
  ∧ initEffects.committedTxns = [] := by decide

/-- C2 (amended): on a non-quarantining attempt, only failures that occur
before the commit (decode or insert) leave the persisted-transaction state
unchanged; the insert is committed immediately, before score computation,
score storage, publish and acknowledgment, so a failure in any of those
later steps leaves the transaction row persisted while the entry stays
unacknowledged.  On success the row is persisted and the entry
acknowledged. -/
theorem c2_amended_rollback_scope (f : Fault) (entryId rawMsg : String)
    (m : Transaction) (venues : List Venue) (now : ℤ) (s : WorkerEffects)
    (hretry : s.retryCount < MAX_RETRIES) :
    ((f = Fault.decode ∨ f = Fault.insert) →
      (process_message f entryId rawMsg m venues now s).committedTxns = s.committedTxns
      ∧ (process_message f entryId rawMsg m venues now s).ackedMain = s.ackedMain)
  ∧ ((f = Fault.score ∨ f = Fault.setKey ∨ f = Fault.publish ∨ f = Fault.ack) →
      (process_message f entryId rawMsg m venues now s).committedTxns = s.committedTxns ++ [m]
      ∧ (process_message f entryId rawMsg m venues now s).ackedMain = s.ackedMain)
  ∧ (f = Fault.ok →
      (process_message f entryId rawMsg m venues now s).committedTxns = s.committedTxns ++ [m]
      ∧ (process_message f entryId rawMsg m venues now s).ackedMain = s.ackedMain + 1) := by
  have hnp : ¬ MAX_RETRIES < s.retryCount + 1 := by omega
  refine ⟨?_, ?_, ?_⟩
  · rintro (rfl | rfl) <;> exact ⟨by simp [process_message, exceptBranch, hnp],
      by simp [process_message, exceptBranch, hnp]⟩
  · rintro (rfl | rfl | rfl | rfl) <;> exact ⟨by simp [process_message, exceptBranch, hnp],
      by simp [process_message, exceptBranch, hnp]⟩
  · rintro rfl
    exact ⟨by simp [process_message], by simp [process_message]⟩

/-- C2 witness: the amended rollback scope evaluated at a publish failure
on a fresh entry. -/
theorem c2_amended_rollback_scope_witness :
    ((Fault.publish = Fault.decode ∨ Fault.publish = Fault.insert) →
      (process_message Fault.publish "1-0" "raw" exMsg [exVenue] 100 initEffects).committedTxns
        = initEffects.committedTxns
      ∧ (process_message Fault.publish "1-0" "raw" exMsg [exVenue] 100 initEffects).ackedMain
        = initEffects.ackedMain)
  ∧ ((Fault.publish = Fault.score ∨ Fault.publish = Fault.setKey
        ∨ Fault.publish = Fault.publish ∨ Fault.publish = Fault.ack) →
      (process_message Fault.publish "1-0" "raw" exMsg [exVenue] 100 initEffects).committedTxns
        = initEffects.committedTxns ++ [exMsg]
      ∧ (process_message Fault.publish "1-0" "raw" exMsg [exVenue] 100 initEffects).ackedMain
        = initEffects.ackedMain)
  ∧ (Fault.publish = Fault.ok →
      (process_message Fault.publish "1-0" "raw" exMsg [exVenue] 100 initEffects).committedTxns
        = initEffects.committedTxns ++ [exMsg]
      ∧ (process_message Fault.publish "1-0" "raw" exMsg [exVenue] 100 initEffects).ackedMain
        = initEffects.ackedMain + 1) :=
  c2_amended_rollback_scope Fault.publish "1-0" "raw" exMsg [exVenue] 100 initEffects (by decide)

/-! ## Claim C3 -/

/-- C3: an entry whose processing fails on every delivery attempt stays in
the pending set (hence deliverable) through attempts 1 to `MAX_RETRIES + 1`
— it is delivered exactly `MAX_RETRIES + 1 = 4` times — and after the
last attempt exactly one dead-letter record has been written, the entry
has been acknowledged exactly once, the retry counter has been deleted,
and no further delivery changes anything. -/
theorem c3_poison_after_max_retries (fs : ℕ → Fault) (entryId rawMsg : String)
    (m : Transaction) (venues : List Venue) (now : ℤ)
    (hf : ∀ n, failsBeforeAck (fs n) = true) :
    (runDeliveries fs entryId rawMsg m venues now 0).pendingEntry = true
  ∧ (runDeliveries fs entryId rawMsg m venues now 1).pendingEntry = true
  ∧ (runDeliveries fs entryId rawMsg m venues now 2).pendingEntry = true
  ∧ (runDeliveries fs entryId rawMsg m venues now MAX_RETRIES).pendingEntry = true
  ∧ (runDeliveries fs entryId rawMsg m venues now (MAX_RETRIES + 1)).pendingEntry = false
  ∧ (runDeliveries fs entryId rawMsg m venues now (MAX_RETRIES + 1)).dlq.length = 1
  ∧ (runDeliveries fs entryId rawMsg m venues now (MAX_RETRIES + 1)).ackedMain = 1
  ∧ (runDeliveries fs entryId rawMsg m venues now (MAX_RETRIES + 1)).retryCount = 0
  ∧ ∀ n, runDeliveries fs entryId rawMsg m venues now (MAX_RETRIES + 1 + n)
      = runDeliveries fs entryId rawMsg m venues now (MAX_RETRIES + 1) := by
  have h0 := runDeliveries_view_le fs entryId rawMsg m venues now hf 0 (by decide)
  have h1 := runDeliveries_view_le fs entryId rawMsg m venues now hf 1 (by decide)
  have h2 := runDeliveries_view_le fs entryId rawMsg m venues now hf 2 (by decide)
  have h3 := runDeliveries_view_le fs entryId rawMsg m venues now hf MAX_RETRIES le_rfl
  have h4 := runDeliveries_view_exhausted fs entryId rawMsg m venues now hf
  have hp4 : (runDeliveries fs entryId rawMsg m venues now (MAX_RETRIES + 1)).pendingEntry
      = false := by
    have := congrArg RetryView.pending h4; simpa [viewOf] using this
  refine ⟨?_, ?_, ?_, ?_, hp4, ?_, ?_, ?_, ?_⟩
  · have := congrArg RetryView.pending h0; simpa [viewOf] using this
  · have := congrArg RetryView.pending h1; simpa [viewOf] using this
  · have := congrArg RetryView.pending h2; simpa [viewOf] using this
  · have := congrArg RetryView.pending h3; simpa [viewOf] using this
  · have := congrArg RetryView.dlqLen h4; simpa [viewOf] using this
  · have := congrArg RetryView.acked h4; simpa [viewOf] using this
  · have := congrArg RetryView.retryCount h4; simpa [viewOf] using this
  · exact runDeliveries_stable fs entryId rawMsg m venues now (MAX_RETRIES + 1) hp4

/-- C3 witness: the bounded-retry lifecycle evaluated with a decode
failure on every attempt. -/
theorem c3_poison_after_max_retries_witness :
    (runDeliveries (fun _ => Fault.decode) "1-0" "raw" exMsg [exVenue] 100
        MAX_RETRIES).pendingEntry = true
  ∧ (runDeliveries (fun _ => Fault.decode) "1-0" "raw" exMsg [exVenue] 100
        (MAX_RETRIES + 1)).pendingEntry = false
  ∧ (runDeliveries (fun _ => Fault.decode) "1-0" "raw" exMsg [exVenue] 100
        (MAX_RETRIES + 1)).dlq.length = 1
  ∧ (runDeliveries (fun _ => Fault.decode) "1-0" "raw" exMsg [exVenue] 100
        (MAX_RETRIES + 1)).ackedMain = 1
  ∧ (runDeliveries (fun _ => Fault.decode) "1-0" "raw" exMsg [exVenue] 100
        (MAX_RETRIES + 1)).retryCount = 0 := by
  have h := c3_poison_after_max_retries (fun _ => Fault.decode) "1-0" "raw" exMsg [exVenue] 100
    (fun n => rfl)
  exact ⟨h.2.2.2.1, h.2.2.2.2.1, h.2.2.2.2.2.1, h.2.2.2.2.2.2.1, h.2.2.2.2.2.2.2.1⟩

/-! ## Claim C4 -/

/-- C4 counterexample: after exactly three consecutive processing failures
with `MAX_RETRIES = 3`, the entry has not been acknowledged at all, no
dead-letter record exists, and the entry is still pending — so it is
redelivered a fourth time, contrary to the claim. -/
theorem c4_three_failures_counterexample :
    (runDeliveries (fun _ => Fault.score) "9-9" "raw" exMsg [exVenue] 100 3).ackedMain = 0
  ∧ (runDeliveries (fun _ => Fault.score) "9-9" "raw" exMsg [exVenue] 100 3).dlq = []
  ∧ (runDeliveries (fun _ => Fault.score) "9-9" "raw" exMsg [exVenue] 100 3).pendingEntry
      = true := by decide

/-- C4 (amended): with `MAX_RETRIES = 3`, it takes four consecutive
failures on the same entry — the quarantine fires when the incremented
counter exceeds `MAX_RETRIES`, i.e. on the fourth failed delivery — after
which the entry is acknowledged exactly once, via quarantine (one
dead-letter record), the counter is deleted, and it is never redelivered a
fifth time. -/
theorem c4_amended_fourth_failure_quarantines :
    (runDeliveries (fun _ => Fault.score) "9-9" "raw" exMsg [exVenue] 100 4).ackedMain = 1
  ∧ (runDeliveries (fun _ => Fault.score) "9-9" "raw" exMsg [exVenue] 100 4).dlq.length = 1
  ∧ (runDeliveries (fun _ => Fault.score) "9-9" "raw" exMsg [exVenue] 100 4).pendingEntry
      = false
  ∧ (runDeliveries (fun _ => Fault.score) "9-9" "raw" exMsg [exVenue] 100 4).retryCount = 0
  ∧ ∀ n, runDeliveries (fun _ => Fault.score) "9-9" "raw" exMsg [exVenue] 100 (4 + n)
      = runDeliveries (fun _ => Fault.score) "9-9" "raw" exMsg [exVenue] 100 4 := by
  refine ⟨by decide, by decide, by decide, by decide, ?_⟩
  exact runDeliveries_stable (fun _ => Fault.score) "9-9" "raw" exMsg [exVenue] 100 4 (by decide)

/-! ## Claim C5 -/

/-- C5 counterexample: the claim says every venue with capacity at most 0
scores 0 in both computations, and that scores always lie in `[0, 100]`.
The worker's guard is `capacity == 0` only: at capacity `-100` with window
sum 50 it divides and returns `-50`, which is neither 0 nor in the
range. -/
theorem c5_capacity_guard_counterexample :
    calculate_hotness [negVenue] negTxns 100 "vneg" = -50
  ∧ calculate_hotness [negVenue] negTxns 100 "vneg" ≠ 0
  ∧ ¬ 0 ≤ calculate_hotness [negVenue] negTxns 100 "vneg" := by decide

/-- C5 (amended): the `/scores` endpoint returns 0 for capacity at most 0
without running the window query, and its result always lies in
`[0, 100]`; the worker's `calculate_hotness` returns 0 for capacity
exactly 0, but for negative capacity it divides, and with nonnegative
quantities its result is nonpositive rather than 0. -/
theorem c5_amended_capacity_guards (v : Venue) (txns : List Transaction) (now : ℤ)
    (hcap : v.capacity ≤ 0) (hq : ∀ t ∈ txns, 0 ≤ t.quantity) :
    venueScore txns now v = 0
  ∧ (∀ u : Venue, ∀ ts : List Transaction, ∀ vn : ℤ,
        0 ≤ venueScore ts vn u ∧ venueScore ts vn u ≤ 100)
  ∧ (v.capacity = 0 → calculate_hotness [v] txns now v.id = 0)
  ∧ (v.capacity < 0 → calculate_hotness [v] txns now v.id ≤ 0) := by
  refine ⟨by simp [venueScore, hcap], ?_, ?_, ?_⟩
  · intro u ts vn
    simp only [venueScore]
    split
    · exact ⟨le_rfl, by norm_num⟩
    · exact ⟨le_min (by norm_num) (le_max_left 0 _), min_le_left _ _⟩
  · intro h0
    simp [calculate_hotness, List.find?_cons, beq_self_eq_true, h0]
  · intro hneg
    simp only [calculate_hotness, List.find?_cons, beq_self_eq_true]
    rw [if_neg (by omega)]
    have htr : truncDiv (sumQuantitySince txns v.id (now - WINDOW) * 100) v.capacity ≤ 0 :=
      truncDiv_nonpos (mul_nonneg (sumQuantitySince_nonneg hq) (by norm_num)) hneg
    calc min (truncDiv (sumQuantitySince txns v.id (now - WINDOW) * 100) v.capacity) 100
        ≤ truncDiv (sumQuantitySince txns v.id (now - WINDOW) * 100) v.capacity :=
          min_le_left _ _
      _ ≤ 0 := htr

/-- C5 witness: the amended guards evaluated at the negative-capacity
venue. -/
theorem c5_amended_capacity_guards_witness :
    venueScore negTxns 100 negVenue = 0
  ∧ (∀ u : Venue, ∀ ts : List Transaction, ∀ vn : ℤ,
        0 ≤ venueScore ts vn u ∧ venueScore ts vn u ≤ 100)
  ∧ (negVenue.capacity = 0 → calculate_hotness [negVenue] negTxns 100 negVenue.id = 0)
  ∧ (negVenue.capacity < 0 → calculate_hotness [negVenue] negTxns 100 negVenue.id ≤ 0) :=
  c5_amended_capacity_guards negVenue negTxns 100 (by decide) (by decide)

/-! ## Claim C7 -/

/-- C7: `/ingest` rejects a missing signature header with an
authentication failure, a malformed payload with a validation failure, an
unknown venue with not-found, and a wrong signature with an authentication
failure, and in every non-success case appends nothing to the stream; only
when all checks pass and the `XADD` succeeds does it append exactly one
entry and return the queued acknowledgment. -/
theorem c7_ingest_errors_no_queue (mac : String → String → String)
    (parse : String → Option IngestionPayload) (venues : List Venue)
    (xaddOk : Bool) (req : IngestRequest) :
    (req.x_signature = none →
      ingest_data mac parse venues xaddOk req = (.missingSignature, []))
  ∧ (∀ sig, req.x_signature = some sig → parse req.body = none →
      ingest_data mac parse venues xaddOk req = (.invalidPayload, []))
  ∧ (∀ sig payload, req.x_signature = some sig → parse req.body = some payload →
      venues.find? (fun v => v.id == payload.venue_id) = none →
      ingest_data mac parse venues xaddOk req = (.venueNotFound, []))
  ∧ (∀ sig payload venue, req.x_signature = some sig → parse req.body = some payload →
      venues.find? (fun v => v.id == payload.venue_id) = some venue →
      (mac venue.secret_key_hash req.body == sig) = false →
      ingest_data mac parse venues xaddOk req = (.invalidSignature, []))
  ∧ ((ingest_data mac parse venues xaddOk req).1 ≠ IngestResponse.queued →
      (ingest_data mac parse venues xaddOk req).2 = [])
  ∧ (∀ sig payload venue, req.x_signature = some sig → parse req.body = some payload →
      venues.find? (fun v => v.id == payload.venue_id) = some venue →
      (mac venue.secret_key_hash req.body == sig) = true → xaddOk = true →
      ingest_data mac parse venues xaddOk req
        = (.queued, [{ venue_id := payload.venue_id, timestamp := payload.timestamp,
                       transaction_count := payload.transaction_count,
                       raw_payload := req.body }])) := by
  refine ⟨?_, ?_, ?_, ?_, ?_, ?_⟩
  · intro hx; simp [ingest_data, hx]
  · intro sig hx hp; simp [ingest_data, hx, hp]
  · intro sig payload hx hp hfind; simp [ingest_data, hx, hp, hfind]
  · intro sig payload venue hx hp hfind hmac; simp [ingest_data, hx, hp, hfind, hmac]
  · intro hne
    rcases hx : req.x_signature with _ | sig
    · simp [ingest_data, hx]
    · rcases hp : parse req.body with _ | payload
      · simp [ingest_data, hx, hp]
      · rcases hfind : venues.find? (fun v => v.id == payload.venue_id) with _ | venue
        · simp [ingest_data, hx, hp, hfind]
        · rcases hmac : (mac venue.secret_key_hash req.body == sig) with _ | _
          · simp [ingest_data, hx, hp, hfind, hmac]
          · cases hadd : xaddOk
            · simp [ingest_data, hx, hp, hfind, hmac, hadd]
            · exfalso
              exact hne (by simp [ingest_data, hx, hp, hfind, hmac, hadd])
  · intro sig payload venue hx hp hfind hmac hadd
    simp [ingest_data, hx, hp, hfind, hmac, hadd]

/-- C7 witness: the full success path with a concrete deterministic MAC
and parser. -/
theorem c7_ingest_errors_no_queue_witness :
    ingest_data (fun s b => s ++ b)
      (fun _ => some { venue_id := "v100", timestamp := "t", transaction_count := 25 })
      [exVenue] true { x_signature := some "secB", body := "B" }
      = (.queued, [{ venue_id := "v100", timestamp := "t", transaction_count := 25,
                     raw_payload := "B" }]) :=
  (c7_ingest_errors_no_queue (fun s b => s ++ b)
      (fun _ => some { venue_id := "v100", timestamp := "t", transaction_count := 25 })
      [exVenue] true { x_signature := some "secB", body := "B" }).2.2.2.2.2
    "secB" { venue_id := "v100", timestamp := "t", transaction_count := 25 } exVenue
    rfl rfl (by decide) (by decide) rfl

/-! ## Claim C8 -/

/-- C8 counterexample: dead-letter records are written with the JSON keys
`id`, `message` and `error` (`worker/main.py:71`), not with the claimed
field names `entry_id`, `original_message` and `error`. -/
theorem c8_dlq_record_counterexample :
    (handle_poison_pill "1-0" "origmsg" "lasterr" initEffects).dlq
      = [poisonRecord "1-0" "origmsg" "lasterr"]
  ∧ (poisonRecord "1-0" "origmsg" "lasterr").map Prod.fst
      ≠ ["entry_id", "original_message", "error"] := by decide

/-- C8 (amended): every quarantined entry is pushed (`LPUSH`, i.e.
prepended) onto the separate dead-letter list as a record with exactly the
fields `{id, message, error}`, carrying the entry's id, its stringified
original message, and the last error; quarantining also acknowledges the
entry. -/
theorem c8_amended_dlq_record (entryId message error : String) (s : WorkerEffects) :
    (handle_poison_pill entryId message error s).dlq
      = poisonRecord entryId message error :: s.dlq
  ∧ (poisonRecord entryId message error).map Prod.fst = ["id", "message", "error"]
  ∧ (poisonRecord entryId message error).lookup "id" = some entryId
  ∧ (poisonRecord entryId message error).lookup "message" = some message
  ∧ (poisonRecord entryId message error).lookup "error" = some error
  ∧ (handle_poison_pill entryId message error s).ackedMain = s.ackedMain + 1
  ∧ (handle_poison_pill entryId message error s).pendingEntry = false := by
  refine ⟨rfl, rfl, ?_, ?_, ?_, rfl, rfl⟩ <;> rfl

/-! ## Claim C9 -/

/-- C9: `ensure_group` is idempotent and never propagates an error: it
returns exactly the state described by the spec (`ensure_group_spec`) —
the group created positioned at the start of the stream (`id="0"`) when
absent, and the existing group left untouched (cursor and pending set
preserved) when present — and applying it again to that state returns the
same state. -/
theorem c9_ensure_group_idempotent (s : StreamGroups) :
    ensure_group s = Except.ok (ensure_group_spec s)
  ∧ ensure_group (ensure_group_spec s) = Except.ok (ensure_group_spec s) := by
  obtain ⟨g⟩ := s
  cases g <;> simp [ensure_group, ensure_group_spec, xgroup_create]

/-! ## Claim C10 -/

/-- C10: when the transactions table is empty, `MAX(timestamp)` is `NULL`,
so `/scores` returns score 0 for every venue and executes zero per-venue
window queries. -/
theorem c10_empty_table_scores (venues : List Venue) :
    get_scores venues [] = (venues.map (fun v => (v.id, 0)), 0) := rfl

end WhatsThePlan
